import Mathlib

/-!
Verification development for `src/lib/dashboard-forecast-data.ts`, a
deterministic synthetic forecast generator for oceanographic variables.

Modelling conventions (shallow embedding of the TypeScript source):

* JS numbers are modelled as exact rationals (`ℚ`).  All operations the
  claims depend on (the PRNG output `word / 2^32`, clamping, comparisons,
  integer rounding) are exact in IEEE doubles as well; general `+`,`*`,`/`
  are the ideal real-valued readings of the double operations.
* The `mulberry32` PRNG pipeline is all 32-bit integer arithmetic in JS
  (`|0`, `Math.imul`, `^`, `>>>`); it is modelled bit-exactly on `ℕ`
  reduced `% 2^32` (the unsigned view of the int32 bit patterns).
* `Math.sin` is implementation-defined in ECMAScript, so the development is
  parameterised by a function `msin : ℚ → ℚ`, where `msin x` stands for
  `Math.sin (2 * Math.PI * x)`; every use of `Math.sin` in the source has
  the shape `Math.sin ((e) * Math.PI * 2)`.
* JS `NaN` / `Infinity` / `-Infinity` arise in this program only through
  `parseInt` failure, `Math.min()` / `Math.max()` of an empty spread,
  division `0 / 0`, and arithmetic on `undefined`; these spots are modelled
  explicitly with `Option` and the four-constructor type `JSNum`.
-/

namespace FDA

/-! ### Deterministic random source: `mulberry32` (source lines 4–11) -/

/-- One call of the closure returned by `mulberry32`, on the unsigned view of
the 32-bit state `a`: returns the post-increment state `(a + 0x6D2B79F5) | 0`
together with the mixed 32-bit output word `(t ^ t >>> 14) >>> 0`. -/
def mulberry32Next (a : ℕ) : ℕ × ℕ :=
  let a1 := (a + 0x6D2B79F5) % 4294967296
  let t1 := ((Nat.xor a1 (a1 >>> 15)) * (Nat.lor 1 a1)) % 4294967296
  let t2 := Nat.xor ((t1 + ((Nat.xor t1 (t1 >>> 7)) * (Nat.lor 61 t1)) % 4294967296) % 4294967296) t1
  (a1, Nat.xor t2 (t2 >>> 14))

/-- State of the `mulberry32` closure after `k` calls, starting from the
integer seed `seed` (`a |= 0` reduces the seed to its 32-bit pattern). -/
def mulbAfter (seed : ℕ) : ℕ → ℕ
  | 0 => seed % 4294967296
  | k + 1 => (mulberry32Next (mulbAfter seed k)).1

/-- Value in `[0,1)` returned by the `(k+1)`-th call of the generator seeded
with `seed`: the output word divided by `4294967296`. -/
def randAt (seed k : ℕ) : ℚ :=
  ((mulberry32Next (mulbAfter seed k)).2 : ℚ) / 4294967296

/-! ### JS number special values -/

/-- A JS number as it can appear in the `stats` fields: a finite value,
`NaN`, `Infinity` or `-Infinity`. -/
inductive JSNum where
  | num (q : ℚ)
  | nan
  | inf
  | negInf
deriving DecidableEq

/-- JS `Math.round` on a finite value: nearest integer, ties toward `+∞`. -/
def jsRound (q : ℚ) : ℤ := Int.floor (q + 1/2)

/-- Value of `q.toFixed d` for a finite nonnegative `q`: the JS algorithm picks the
integer `n` minimising `|n / 10^d - q|`, larger `n` on ties. -/
def qToFixedNN (d : ℕ) (q : ℚ) : String :=
  let n : ℕ := (Int.floor (q * (10:ℚ)^d + 1/2)).toNat
  let ip := n / 10^d
  let fp := n % 10^d
  if d = 0 then toString ip
  else toString ip ++ "." ++ String.mk (List.replicate (d - (toString fp).length) '0') ++ toString fp

/-- JS `Number.prototype.toFixed` on a `JSNum` (sign is peeled before rounding,
as in the ECMAScript algorithm; `NaN` prints `"NaN"`, infinities print via
`ToString`). -/
def jsToFixed (d : ℕ) : JSNum → String
  | .nan => "NaN"
  | .inf => "Infinity"
  | .negInf => "-Infinity"
  | .num q => if q < 0 then "-" ++ qToFixedNN d (-q) else qToFixedNN d q

/-- JS comparison `x > 0` (false on `NaN`). -/
def jsGtZeroBool : JSNum → Bool
  | .num q => decide (0 < q)
  | .inf => true
  | .nan => false
  | .negInf => false

/-- JS comparison `Math.abs x > c` (false on `NaN`). -/
def jsAbsGtBool (x : JSNum) (c : ℚ) : Bool :=
  match x with
  | .num q => decide (c < |q|)
  | .inf => true
  | .negInf => true
  | .nan => false

/-- JS comparison `Math.abs x < c` (false on `NaN` and infinities). -/
def jsAbsLtBool (x : JSNum) (c : ℚ) : Bool :=
  match x with
  | .num q => decide (|q| < c)
  | .inf => false
  | .negInf => false
  | .nan => false

/-- Product `x * 100` on a `JSNum` (used for the trend threshold test). -/
def jsMul100 : JSNum → JSNum
  | .num q => .num (q * 100)
  | .nan => .nan
  | .inf => .inf
  | .negInf => .negInf

/-- JS `Math.min(...l)`: `Infinity` on the empty spread. -/
def listMinJS : List ℚ → JSNum
  | [] => .inf
  | x :: xs => .num (xs.foldl min x)

/-- JS `Math.max(...l)`: `-Infinity` on the empty spread. -/
def listMaxJS : List ℚ → JSNum
  | [] => .negInf
  | x :: xs => .num (xs.foldl max x)

/-! ### Data model (source lines 13–56) -/

/-- The nine keys of `ARGO_RANGES` (`ForecastVariable = keyof typeof ARGO_RANGES`). -/
inductive ForecastVariable where
  | temperature
  | salinity
  | ph
  | oxygen
  | chlorophyll
  | nitrate
  | bbp700
  | cdom
  | downwelling_par
deriving DecidableEq, BEq

/-- The fixed `[min, max]` bound table `ARGO_RANGES`. -/
def ARGO_RANGES : ForecastVariable → ℚ × ℚ
  | .temperature => (26.51, 29.27)
  | .salinity => (35.28, 35.70)
  | .ph => (7.9297, 8.0356)
  | .oxygen => (5.4508, 6.1149)
  | .chlorophyll => (0.94599, 1.27193)
  | .nitrate => (1.63915, 2.08097)
  | .bbp700 => (0.003708, 0.024895)
  | .cdom => (0.25337, 0.31673)
  | .downwelling_par => (168.58, 226.57)

inductive DataPointType where
  | historical
  | forecast
deriving DecidableEq, BEq

/-- Structure `ForecastDataPoint`: `confidence` is present exactly on forecast points. -/
structure ForecastDataPoint where
  day : String
  value : ℚ
  type : DataPointType
  confidence : Option (ℚ × ℚ)
deriving DecidableEq

/-- Structure `ForecastResult.stats`; `min`, `max`, `trend` can be `±Infinity` / `NaN`
when the forecast segment is empty, hence `JSNum`. -/
structure ForecastStats where
  min : JSNum
  max : JSNum
  trend : JSNum
  confidence : ℤ
  narrative : String
deriving DecidableEq

/-- Structure `ForecastParams`; `trainingDays` is a positive integer per the interface
contract, modelled as `ℕ` (the TS field `variables` is a reserved word in
Lean, renamed `variables_`). -/
structure ForecastParams where
  trainingDays : ℕ
  horizon : String
  variables_ : List ForecastVariable
deriving DecidableEq

/-- Structure `ForecastResult` (the TS field `variable` is a Lean keyword, renamed
`varName`). -/
structure ForecastResult where
  varName : ForecastVariable
  data : List ForecastDataPoint
  stats : ForecastStats
  range : ℚ × ℚ
deriving DecidableEq

/-- Top-level `ForecastData`. -/
structure ForecastData where
  params : ForecastParams
  results : List ForecastResult
  narrative : String
deriving DecidableEq

/-! ### JS `parseInt` and horizon resolution (source lines 58–66) -/

/-- ASCII fragment of the whitespace skipped by JS `parseInt`. -/
def isJsSpace (c : Char) : Bool :=
  c == ' ' || c == '\t' || c == '\n' || c == '\r' || c == '\x0b' || c == '\x0c'

/-- Decimal digit value of a character, if any. -/
def decDigit? (c : Char) : Option ℕ :=
  if c.isDigit then some (c.toNat - 48) else none

/-- Hexadecimal digit value of a character, if any. -/
def hexDigit? (c : Char) : Option ℕ :=
  if c.isDigit then some (c.toNat - 48)
  else if 'a' ≤ c ∧ c ≤ 'f' then some (c.toNat - 87)
  else if 'A' ≤ c ∧ c ≤ 'F' then some (c.toNat - 55)
  else none

/-- Longest prefix of digit values under the digit reading `f`. -/
def takeDigits (f : Char → Option ℕ) : List Char → List ℕ
  | [] => []
  | c :: cs =>
    match f c with
    | some d => d :: takeDigits f cs
    | none => []

/-- Value of a digit string in the given base, most significant first. -/
def digitsToNat (base : ℕ) (ds : List ℕ) : ℕ :=
  ds.foldl (fun acc d => acc * base + d) 0

/-- JS `parseInt(s)` (no radix argument): skip whitespace, read an optional
sign, detect a `0x`/`0X` prefix (then hexadecimal), read the longest digit
prefix and ignore the rest; `none` models the `NaN` result when no digit is
read. -/
def jsParseInt (s : String) : Option ℤ :=
  let cs := s.toList.dropWhile isJsSpace
  let sc : ℤ × List Char :=
    match cs with
    | '-' :: rest => (-1, rest)
    | '+' :: rest => (1, rest)
    | _ => (1, cs)
  match sc.2 with
  | '0' :: 'x' :: rest =>
    let ds := takeDigits hexDigit? rest
    if ds.isEmpty then none else some (sc.1 * digitsToNat 16 ds)
  | '0' :: 'X' :: rest =>
    let ds := takeDigits hexDigit? rest
    if ds.isEmpty then none else some (sc.1 * digitsToNat 16 ds)
  | _ =>
    let ds := takeDigits decDigit? sc.2
    if ds.isEmpty then none else some (sc.1 * digitsToNat 10 ds)

/-- Test that `pat` starts `l` (character comparison). -/
def listStartsWith : List Char → List Char → Bool
  | [], _ => true
  | _ :: _, [] => false
  | p :: ps, c :: cs => p == c && listStartsWith ps cs

/-- JS `String.prototype.includes`: `pat` occurs contiguously in `l`. -/
def listContainsSub (pat : List Char) : List Char → Bool
  | [] => pat.isEmpty
  | c :: cs => listStartsWith pat (c :: cs) || listContainsSub pat cs

/-- Function `getHorizonInDays` (source lines 58–66).  `horizon.endsWith('d')` is the
test that the last character is `'d'`; `horizon.slice(0, -1)` drops it.
`none` models the `NaN` returned when `parseInt` fails. -/
def getHorizonInDays (horizon : String) : Option ℤ :=
  if horizon.toList.getLast? = some 'd' then
    jsParseInt (String.mk horizon.toList.dropLast)
  else if listContainsSub ("month".toList) horizon.toList then
    some 30
  else
    some 30

/-! ### Single-variable generator (source lines 69–160) -/

/-- JS `Math.max(lo, Math.min(hi, x))`. -/
def clampQ (lo hi x : ℚ) : ℚ := max lo (min hi x)

variable (msin : ℚ → ℚ)

/-- Historical point for loop index `i` (source lines 84–94):
`sinusoidal = Math.sin((i/365)*PI*2)*0.25 + Math.sin((i/30)*PI*2)*0.25`,
`noise = (random() - 0.5) * 0.1` using the `i`-th PRNG draw,
`value = min + (0.5 + 0.5*(sinusoidal + noise)) * range`, clamped. -/
def historicalPoint (seed td : ℕ) (lo hi : ℚ) (i : ℕ) : ForecastDataPoint :=
  let range := hi - lo
  let sinusoidal := msin ((i : ℚ) / 365) * 0.25 + msin ((i : ℚ) / 30) * 0.25
  let noise := (randAt seed i - 0.5) * 0.1
  let normalizedValue := 0.5 + 0.5 * (sinusoidal + noise)
  let value := lo + normalizedValue * range
  { day := "D-" ++ toString (td - i)
    value := clampQ lo hi value
    type := .historical
    confidence := none }

/-- The `historicalData` array: loop `for (i = 0; i < trainingDays; i++)`. -/
def historicalData (seed td : ℕ) (lo hi : ℚ) : List ForecastDataPoint :=
  (List.range td).map (historicalPoint msin seed td lo hi)

/-- Seasonal-naive component (source line 106):
`(historicalData[historicalData.length - (30 - (i % 30))]?.value ?? lastVal) - lastVal`;
an out-of-range (possibly negative) index reads `undefined` and falls back to
`lastVal`. -/
def seasonalNaiveVal (hist : List ForecastDataPoint) (lastVal : ℚ) (i : ℕ) : ℚ :=
  let idx : ℤ := (hist.length : ℤ) - (30 - ((i % 30 : ℕ) : ℤ))
  (if 0 ≤ idx then (((hist.get? idx.toNat).map fun p => p.value).getD lastVal) else lastVal)
    - lastVal

/-- The `seasonalAmplitude` constant (source line 100). -/
def genSAmp (td : ℕ) : ℚ := if 30 < td then ((td : ℚ) / 100) * 0.5 else 0

/-- The `trend` constant (source line 101); the PRNG is consulted (draw
number `td`, after the `td` historical draws) only when `trainingDays > 30`. -/
def genTrendC (seed td : ℕ) (range : ℚ) : ℚ :=
  if 30 < td then (randAt seed td - 0.5) * (range * 0.01) else 0

/-- Initial `lastVal` (source line 98):
`historicalData[historicalData.length - 1]?.value ?? (min + range / 2)`. -/
def genLastVal0 (hist : List ForecastDataPoint) (lo range : ℚ) : ℚ :=
  ((hist.getLast?).map fun p => p.value).getD (lo + range / 2)

/-- Number of iterations of `for (i = 0; i < horizonDays; i++)`: zero when
`horizonDays` is `NaN` (every comparison with `NaN` is false) or negative. -/
def loopCount : Option ℤ → ℕ
  | none => 0
  | some n => n.toNat

/-- The forecast loop (source lines 103–126), recursing on the remaining
iteration count `n` with loop index `i` and accumulator `lastVal`.  Each
iteration consumes PRNG draw number `td + (1 if the trend draw happened) + i`
for `uncertaintyNoise`. -/
def forecastLoop (hist : List ForecastDataPoint) (lo hi : ℚ) (seed td : ℕ)
    (trendC sAmp : ℚ) : ℕ → ℕ → ℚ → List ForecastDataPoint
  | 0, _, _ => []
  | n + 1, i, lastVal =>
    let range := hi - lo
    let seasonalVal :=
      if td ≤ 20 then seasonalNaiveVal hist lastVal i
      else msin (((td : ℚ) + (i : ℚ)) / 365) * range * 0.1 * sAmp
    let uncertaintyNoise :=
      (randAt seed (td + (if 30 < td then 1 else 0) + i) - 0.5) * range * 0.2
        * (1 - (td : ℚ) / 120)
    let nextVal := clampQ lo hi (lastVal + seasonalVal + trendC + uncertaintyNoise)
    let confidenceRange := range * 0.15 * (1 - (td : ℚ) / 120)
    let lower := max lo (nextVal - confidenceRange)
    let upper := min hi (nextVal + confidenceRange)
    { day := "D+" ++ toString (i + 1)
      value := nextVal
      type := .forecast
      confidence := some (lower, upper) }
      :: forecastLoop hist lo hi seed td trendC sAmp n (i + 1) nextVal

/-- Lower bound of the range of the variable. -/
def genLo (v : ForecastVariable) : ℚ := (ARGO_RANGES v).1

/-- Upper bound of the range of the variable. -/
def genHi (v : ForecastVariable) : ℚ := (ARGO_RANGES v).2

/-- The quantity `range = max - min`. -/
def genRange (v : ForecastVariable) : ℚ := genHi v - genLo v

/-- The `historicalData` array of `generateSingleForecast`. -/
def genHist (v : ForecastVariable) (params : ForecastParams) (seed : ℕ) :
    List ForecastDataPoint :=
  historicalData msin seed params.trainingDays (genLo v) (genHi v)

/-- The `forecastData` array of `generateSingleForecast`. -/
def genFore (v : ForecastVariable) (params : ForecastParams) (seed : ℕ) :
    List ForecastDataPoint :=
  let td := params.trainingDays
  let hist := genHist msin v params seed
  forecastLoop msin hist (genLo v) (genHi v) seed td
    (genTrendC seed td (genRange v)) (genSAmp td)
    (loopCount (getHorizonInDays params.horizon)) 0
    (genLastVal0 hist (genLo v) (genRange v))

/-- The array `forecastSlice = forecastData.map(d => d.value)`. -/
def genSlice (v : ForecastVariable) (params : ForecastParams) (seed : ℕ) : List ℚ :=
  (genFore msin v params seed).map fun p => p.value

/-- The value `forecastTrend = (slice[len-1] - slice[0]) / horizonDays` (source line
132): `NaN` when the slice is empty (`undefined - undefined`, or division of
`NaN`/by a nonpositive count); on a nonempty slice the divisor equals the
iteration count. -/
def trendJS (slice : List ℚ) (numF : ℕ) : JSNum :=
  match slice with
  | [] => .nan
  | x :: xs => .num ((xs.getLastD x - x) / (numF : ℚ))

/-- The per-variable narrative (source lines 134–146). -/
def singleNarrative (td : ℕ) (confidence : ℤ) (fMin fMax fTrend : JSNum) : String :=
  let base :=
    if td ≤ 20 then
      "High uncertainty (" ++ toString confidence
        ++ "% confidence) due to short training period. Bands are wide. "
    else if td ≤ 50 then
      "Balanced confidence (" ++ toString confidence
        ++ "%) with some seasonal patterns emerging. "
    else
      "Strong confidence (" ++ toString confidence
        ++ "%) with clear seasonal cycle. Bands are narrow. "
  let base := base ++ "Forecast shows values between " ++ jsToFixed 2 fMin
    ++ " and " ++ jsToFixed 2 fMax ++ ". "
  if jsAbsGtBool (jsMul100 fTrend) 0.01 then
    base ++ "A " ++ (if jsGtZeroBool fTrend then "warming" else "cooling")
      ++ " trend of approx. " ++ jsToFixed 3 fTrend ++ "/day is detected."
  else
    base ++ "The trend appears stable."

/-- Function `generateSingleForecast` (source lines 69–160). -/
def generateSingleForecast (varName : ForecastVariable) (params : ForecastParams)
    (seed : ℕ) : ForecastResult :=
  let td := params.trainingDays
  let numF := loopCount (getHorizonInDays params.horizon)
  let slice := genSlice msin varName params seed
  let confidence := jsRound ((td : ℚ) / 100 * 80 + 20)
  { varName := varName
    data := genHist msin varName params seed ++ genFore msin varName params seed
    stats :=
      { min := listMinJS slice
        max := listMaxJS slice
        trend := trendJS slice numF
        confidence := confidence
        narrative := singleNarrative td confidence (listMinJS slice) (listMaxJS slice)
          (trendJS slice numF) }
    range := (genLo varName, genHi varName) }

/-! ### Orchestrator (source lines 162–199) -/

/-- The overall narrative (source lines 162–188). -/
def generateOverallNarrative (results : List ForecastResult) (params : ForecastParams) :
    String :=
  let n0 := "This forecast for the next **" ++ params.horizon ++ "**, based on **"
    ++ toString params.trainingDays
    ++ " days** of historical data, suggests the following key trends:\n\n"
  let n1 :=
    match results.find? fun r => r.varName == ForecastVariable.temperature with
    | some tempResult =>
      n0 ++ "*   **Temperature:** A "
        ++ (if jsGtZeroBool tempResult.stats.trend then "gradual increase" else "slight decrease")
        ++ " is anticipated, with values remaining within the historical range. Peak temperature is expected around the end of the forecast period.\n"
    | none => n0
  let n2 :=
    match results.find? fun r => r.varName == ForecastVariable.chlorophyll with
    | some chloroResult =>
      n1 ++ "*   **Chlorophyll:** We expect a "
        ++ (if jsGtZeroBool chloroResult.stats.trend then "modest rise" else "slight decline")
        ++ " in chlorophyll, consistent with seasonal patterns. No significant bloom events are forecasted.\n"
    | none => n1
  let n3 :=
    match results.find? fun r => r.varName == ForecastVariable.oxygen with
    | some _ =>
      n2 ++ "*   **Oxygen:** Oxygen levels are projected to remain stable, with minor fluctuations potentially linked to temperature shifts. Overall ocean health appears steady.\n"
    | none => n2
  let n4 :=
    match results.find? fun r => r.varName == ForecastVariable.salinity with
    | some salinityResult =>
      if jsAbsLtBool salinityResult.stats.trend 0.001 then
        n3 ++ "*   **Salinity & pH:** Both salinity and pH are expected to show minimal variation, indicating stable chemical conditions.\n"
      else n3
    | none => n3
  n4 ++ "\n**Confidence:** The overall confidence in this forecast is **"
    ++ (match results with
        | [] => "NaN"
        | _ :: _ =>
          toString (jsRound
            (((results.foldl (fun acc r => acc + r.stats.confidence) 0 : ℤ) : ℚ)
              / (results.length : ℚ))))
    ++ "%**. Longer training periods generally yield higher confidence."

/-- JS `Array.prototype.map` with the element index as second callback
argument, starting at `i`. -/
def mapWithIndex {α β : Type} (f : α → ℕ → β) : ℕ → List α → List β
  | _, [] => []
  | i, a :: as => f a i :: mapWithIndex f (i + 1) as

/-- Function `generateAllForecasts` (source lines 191–199): one call of the
single-variable generator per requested variable, seed `trainingDays + index`. -/
def generateAllForecasts (params : ForecastParams) : ForecastData :=
  let results := mapWithIndex
    (fun varName index => generateSingleForecast msin varName params (params.trainingDays + index))
    0 params.variables_
  { params := params
    results := results
    narrative := generateOverallNarrative results params }

/-! ### Helper lemmas -/

/-- Default `ForecastDataPoint` used with `List.getD`. -/
def dfltPoint : ForecastDataPoint :=
  { day := "", value := 0, type := .historical, confidence := none }

/-- Default `ForecastResult` used with `List.getD`. -/
def dfltResult : ForecastResult :=
  { varName := .temperature, data := [], stats := ⟨.nan, .nan, .nan, 0, ""⟩, range := (0, 0) }

lemma genLo_lt_genHi (v : ForecastVariable) : genLo v < genHi v := by
  cases v <;> norm_num [genLo, genHi, ARGO_RANGES]

lemma genLo_le_genHi (v : ForecastVariable) : genLo v ≤ genHi v :=
  le_of_lt (genLo_lt_genHi v)

lemma genRange_pos (v : ForecastVariable) : 0 < genRange v :=
  sub_pos.mpr (genLo_lt_genHi v)

lemma clampQ_le (lo hi x : ℚ) (h : lo ≤ hi) : lo ≤ clampQ lo hi x ∧ clampQ lo hi x ≤ hi :=
  ⟨le_max_left _ _, max_le h (min_le_left _ _)⟩

lemma getD_mem {α : Type} (l : List α) (k : ℕ) (d : α) (h : k < l.length) :
    l.getD k d ∈ l := by
  rw [List.getD_eq_getElem l d h]
  exact List.getElem_mem h

lemma historicalData_length (seed td : ℕ) (lo hi : ℚ) :
    (historicalData msin seed td lo hi).length = td := by
  simp [historicalData]

lemma historicalData_getD (seed td : ℕ) (lo hi : ℚ) (k : ℕ) (h : k < td) :
    (historicalData msin seed td lo hi).getD k dfltPoint
      = historicalPoint msin seed td lo hi k := by
  have hlen : k < (historicalData msin seed td lo hi).length := by
    rw [historicalData_length]; exact h
  rw [List.getD_eq_getElem _ _ hlen]
  simp [historicalData]

lemma historicalData_mem_spec (seed td : ℕ) (lo hi : ℚ) (h : lo ≤ hi) :
    ∀ p ∈ historicalData msin seed td lo hi,
      p.type = .historical ∧ p.confidence = none ∧ lo ≤ p.value ∧ p.value ≤ hi := by
  intro p hp
  rcases List.mem_map.mp hp with ⟨i, _, rfl⟩
  exact ⟨rfl, rfl, (clampQ_le lo hi _ h).1, (clampQ_le lo hi _ h).2⟩

lemma forecastLoop_length (hist : List ForecastDataPoint) (lo hi : ℚ) (seed td : ℕ)
    (trendC sAmp : ℚ) :
    ∀ n i lastVal, (forecastLoop msin hist lo hi seed td trendC sAmp n i lastVal).length = n
  | 0, _, _ => rfl
  | n + 1, i, lastVal => by
    rw [forecastLoop]
    simpa using forecastLoop_length hist lo hi seed td trendC sAmp n (i + 1) _

lemma forecastLoop_mem_spec (hist : List ForecastDataPoint) (lo hi : ℚ) (seed td : ℕ)
    (trendC sAmp : ℚ) (h : lo ≤ hi) :
    ∀ n i lastVal, ∀ p ∈ forecastLoop msin hist lo hi seed td trendC sAmp n i lastVal,
      p.type = .forecast ∧ lo ≤ p.value ∧ p.value ≤ hi ∧
      p.confidence = some
        (max lo (p.value - (hi - lo) * 0.15 * (1 - (td : ℚ) / 120)),
         min hi (p.value + (hi - lo) * 0.15 * (1 - (td : ℚ) / 120)))
  | 0, _, _, p, hp => by simp [forecastLoop] at hp
  | n + 1, i, lastVal, p, hp => by
    rw [forecastLoop] at hp
    rcases List.mem_cons.mp hp with rfl | hp'
    · exact ⟨rfl, (clampQ_le lo hi _ h).1, (clampQ_le lo hi _ h).2, rfl⟩
    · exact forecastLoop_mem_spec hist lo hi seed td trendC sAmp h n (i + 1) _ p hp'

lemma forecastLoop_getD_day (hist : List ForecastDataPoint) (lo hi : ℚ) (seed td : ℕ)
    (trendC sAmp : ℚ) :
    ∀ n i lastVal k, k < n →
      ((forecastLoop msin hist lo hi seed td trendC sAmp n i lastVal).getD k dfltPoint).day
        = "D+" ++ toString (i + k + 1)
  | 0, _, _, k, hk => absurd hk (Nat.not_lt_zero k)
  | n + 1, i, lastVal, 0, _ => by
    have h0 : i + 0 + 1 = i + 1 := by omega
    rw [h0, forecastLoop]
    rfl
  | n + 1, i, lastVal, k + 1, hk => by
    rw [forecastLoop]
    show ((forecastLoop msin hist lo hi seed td trendC sAmp n (i + 1) _).getD k dfltPoint).day = _
    rw [forecastLoop_getD_day hist lo hi seed td trendC sAmp n (i + 1) _ k (by omega)]
    have h1 : i + 1 + k + 1 = i + (k + 1) + 1 := by omega
    rw [h1]

lemma genHist_length (v : ForecastVariable) (params : ForecastParams) (seed : ℕ) :
    (genHist msin v params seed).length = params.trainingDays :=
  historicalData_length msin seed params.trainingDays _ _

lemma genFore_length (v : ForecastVariable) (params : ForecastParams) (seed : ℕ) :
    (genFore msin v params seed).length = loopCount (getHorizonInDays params.horizon) :=
  forecastLoop_length msin _ _ _ _ _ _ _ _ _ _

lemma genFore_mem_spec (v : ForecastVariable) (params : ForecastParams) (seed : ℕ) :
    ∀ p ∈ genFore msin v params seed,
      p.type = .forecast ∧ genLo v ≤ p.value ∧ p.value ≤ genHi v ∧
      p.confidence = some
        (max (genLo v) (p.value - genRange v * 0.15 * (1 - (params.trainingDays : ℚ) / 120)),
         min (genHi v) (p.value + genRange v * 0.15 * (1 - (params.trainingDays : ℚ) / 120))) :=
  forecastLoop_mem_spec msin _ _ _ _ _ _ _ (genLo_le_genHi v) _ 0 _

lemma gen_data (v : ForecastVariable) (params : ForecastParams) (seed : ℕ) :
    (generateSingleForecast msin v params seed).data
      = genHist msin v params seed ++ genFore msin v params seed := rfl

lemma gen_data_length (v : ForecastVariable) (params : ForecastParams) (seed : ℕ) :
    (generateSingleForecast msin v params seed).data.length
      = params.trainingDays + loopCount (getHorizonInDays params.horizon) := by
  rw [gen_data, List.length_append, genHist_length, genFore_length]

lemma gen_stats_confidence (v : ForecastVariable) (params : ForecastParams) (seed : ℕ) :
    (generateSingleForecast msin v params seed).stats.confidence
      = jsRound ((params.trainingDays : ℚ) / 100 * 80 + 20) := rfl

lemma gen_stats_min (v : ForecastVariable) (params : ForecastParams) (seed : ℕ) :
    (generateSingleForecast msin v params seed).stats.min
      = listMinJS (genSlice msin v params seed) := rfl

lemma gen_stats_max (v : ForecastVariable) (params : ForecastParams) (seed : ℕ) :
    (generateSingleForecast msin v params seed).stats.max
      = listMaxJS (genSlice msin v params seed) := rfl

lemma gen_stats_trend (v : ForecastVariable) (params : ForecastParams) (seed : ℕ) :
    (generateSingleForecast msin v params seed).stats.trend
      = trendJS (genSlice msin v params seed) (loopCount (getHorizonInDays params.horizon)) := rfl

lemma genAll_results (params : ForecastParams) :
    (generateAllForecasts msin params).results
      = mapWithIndex
          (fun varName index =>
            generateSingleForecast msin varName params (params.trainingDays + index))
          0 params.variables_ := rfl

lemma mapWithIndex_length {α β : Type} (f : α → ℕ → β) :
    ∀ i (l : List α), (mapWithIndex f i l).length = l.length
  | _, [] => rfl
  | i, _ :: as => congrArg Nat.succ (mapWithIndex_length f (i + 1) as)

lemma mapWithIndex_getD {α β : Type} (f : α → ℕ → β) (dβ : β) (dα : α) :
    ∀ (l : List α) i k, k < l.length →
      (mapWithIndex f i l).getD k dβ = f (l.getD k dα) (i + k)
  | [], _, k, hk => absurd hk (Nat.not_lt_zero k)
  | a :: as, i, 0, _ => by simp [mapWithIndex]
  | a :: as, i, k + 1, hk => by
    show (mapWithIndex f (i + 1) as).getD k dβ = _
    rw [mapWithIndex_getD f dβ dα as (i + 1) k (by simpa using hk)]
    congr 1
    omega

lemma jsRound_mono {a b : ℚ} (h : a ≤ b) : jsRound a ≤ jsRound b :=
  Int.floor_le_floor (by linarith)

lemma gen_data_getD_hist (v : ForecastVariable) (params : ForecastParams) (seed : ℕ)
    (k : ℕ) (hk : k < params.trainingDays) :
    (generateSingleForecast msin v params seed).data.getD k dfltPoint
      = (genHist msin v params seed).getD k dfltPoint := by
  have hh : k < (genHist msin v params seed).length := by rw [genHist_length]; exact hk
  have hd : k < (generateSingleForecast msin v params seed).data.length := by
    rw [gen_data_length]; omega
  rw [gen_data, List.getD_eq_getElem _ _ (by rwa [← gen_data]),
    List.getElem_append_left hh, List.getD_eq_getElem _ _ hh]

lemma gen_data_getD_fore (v : ForecastVariable) (params : ForecastParams) (seed : ℕ)
    (j : ℕ) (hj : j < loopCount (getHorizonInDays params.horizon)) :
    (generateSingleForecast msin v params seed).data.getD (params.trainingDays + j) dfltPoint
      = (genFore msin v params seed).getD j dfltPoint := by
  have hf : j < (genFore msin v params seed).length := by rw [genFore_length]; exact hj
  have hd : params.trainingDays + j < (generateSingleForecast msin v params seed).data.length := by
    rw [gen_data_length]; omega
  rw [gen_data, List.getD_eq_getElem _ _ (by rwa [← gen_data]), List.getD_eq_getElem _ _ hf]
  have hsplit : params.trainingDays + j = (genHist msin v params seed).length + j := by
    rw [genHist_length]
  simp only [hsplit]
  rw [List.getElem_append_right (by omega)]
  congr 1
  omega

lemma genHist_eq (v : ForecastVariable) (params : ForecastParams) (seed : ℕ) :
    genHist msin v params seed
      = historicalData msin seed params.trainingDays (genLo v) (genHi v) := rfl

lemma genFore_eq (v : ForecastVariable) (params : ForecastParams) (seed : ℕ) :
    genFore msin v params seed
      = forecastLoop msin (genHist msin v params seed) (genLo v) (genHi v) seed
          params.trainingDays (genTrendC seed params.trainingDays (genRange v))
          (genSAmp params.trainingDays) (loopCount (getHorizonInDays params.horizon)) 0
          (genLastVal0 (genHist msin v params seed) (genLo v) (genRange v)) := rfl

/-! ### Claims -/

/-- C1 (amended): the value of every produced point lies in the configured
`[min, max]` of the variable, and for every point carrying a confidence pair the
chain `min ≤ confidence.1 ≤ value ≤ confidence.2 ≤ max` holds provided
`trainingDays ≤ 120`; for `trainingDays > 120` the band half-width
`range * 0.15 * (1 - trainingDays/120)` is negative and the chain inverts
(see the counterexample). -/
theorem c1_bounds (msin : ℚ → ℚ) (v : ForecastVariable) (params : ForecastParams)
    (seed : ℕ) :
    ∀ p ∈ (generateSingleForecast msin v params seed).data,
      (genLo v ≤ p.value ∧ p.value ≤ genHi v) ∧
      (params.trainingDays ≤ 120 → ∀ c, p.confidence = some c →
        genLo v ≤ c.1 ∧ c.1 ≤ p.value ∧ p.value ≤ c.2 ∧ c.2 ≤ genHi v) := by
  intro p hp
  rw [gen_data] at hp
  rcases List.mem_append.mp hp with hp | hp
  · obtain ⟨-, hc, h1, h2⟩ :=
      historicalData_mem_spec msin seed params.trainingDays _ _ (genLo_le_genHi v) p hp
    refine ⟨⟨h1, h2⟩, fun _ c hcc => ?_⟩
    rw [hc] at hcc
    cases hcc
  · obtain ⟨-, h1, h2, hc⟩ := genFore_mem_spec msin v params seed p hp
    refine ⟨⟨h1, h2⟩, fun htd c hcc => ?_⟩
    rw [hc] at hcc
    injection hcc with hcc
    subst hcc
    have hcast : (params.trainingDays : ℚ) ≤ 120 := by exact_mod_cast htd
    have hCR : 0 ≤ genRange v * 0.15 * (1 - (params.trainingDays : ℚ) / 120) := by
      have hr := le_of_lt (genRange_pos v)
      have h120 : 0 ≤ 1 - (params.trainingDays : ℚ) / 120 := by linarith
      have : (0 : ℚ) ≤ genRange v * 0.15 := by linarith
      exact mul_nonneg this h120
    exact ⟨le_max_left _ _, max_le h1 (by linarith), le_min h2 (by linarith),
      min_le_left _ _⟩

/-- Witness for `c1_bounds` at `(msin = 0, temperature, trainingDays = 1,
horizon = "1d", seed = 0)`, on the forecast point at index 1. -/
theorem c1_bounds_witness :
    ∃ p ∈ (generateSingleForecast (fun _ => 0) ForecastVariable.temperature
        ⟨1, "1d", []⟩ 0).data, ∃ c, p.confidence = some c ∧
      genLo ForecastVariable.temperature ≤ c.1 ∧ c.1 ≤ p.value ∧
      p.value ≤ c.2 ∧ c.2 ≤ genHi ForecastVariable.temperature := by
  have hjl : (0 : ℕ) < (genFore (fun _ => 0) ForecastVariable.temperature
      ⟨1, "1d", []⟩ 0).length := by
    rw [genFore_length]; decide
  have hpF := getD_mem (genFore (fun _ => 0) ForecastVariable.temperature
    ⟨1, "1d", []⟩ 0) 0 dfltPoint hjl
  have hmem : (genFore (fun _ => 0) ForecastVariable.temperature ⟨1, "1d", []⟩ 0).getD 0
      dfltPoint ∈ (generateSingleForecast (fun _ => 0) ForecastVariable.temperature
      ⟨1, "1d", []⟩ 0).data := by
    rw [gen_data]; exact List.mem_append_right _ hpF
  obtain ⟨-, -, -, hc⟩ := genFore_mem_spec (fun _ => 0) ForecastVariable.temperature
    ⟨1, "1d", []⟩ 0 _ hpF
  obtain ⟨h1, h2, h3, h4⟩ := (c1_bounds (fun _ => 0) ForecastVariable.temperature
    ⟨1, "1d", []⟩ 0 _ hmem).2 (by decide) _ hc
  exact ⟨_, hmem, _, hc, h1, h2, h3, h4⟩

/-- C1 counterexample: with `trainingDays = 121` (> 120) the confidence
band half-width is negative, so on the forecast point,
`confidence.1 ≤ value` fails (the claim as stated is false at this input). -/
theorem c1_bounds_cex :
    ¬ (∀ p ∈ (generateSingleForecast (fun _ => 0) ForecastVariable.temperature
          ⟨121, "1d", []⟩ 0).data,
        (genLo ForecastVariable.temperature ≤ p.value ∧
          p.value ≤ genHi ForecastVariable.temperature) ∧
        (∀ c, p.confidence = some c →
          genLo ForecastVariable.temperature ≤ c.1 ∧ c.1 ≤ p.value ∧
          p.value ≤ c.2 ∧ c.2 ≤ genHi ForecastVariable.temperature)) := by
  intro h
  cases hF : genFore (fun _ => 0) ForecastVariable.temperature ⟨121, "1d", []⟩ 0 with
  | nil =>
    have hl := genFore_length (fun _ => 0) ForecastVariable.temperature ⟨121, "1d", []⟩ 0
    rw [hF] at hl
    exact absurd hl (by decide)
  | cons p rest =>
    have hpF : p ∈ genFore (fun _ => 0) ForecastVariable.temperature ⟨121, "1d", []⟩ 0 := by
      rw [hF]; exact List.mem_cons_self _ _
    have hmem : p ∈ (generateSingleForecast (fun _ => 0) ForecastVariable.temperature
        ⟨121, "1d", []⟩ 0).data := by
      rw [gen_data]; exact List.mem_append_right _ hpF
    obtain ⟨-, h1, -, hc⟩ :=
      genFore_mem_spec (fun _ => 0) ForecastVariable.temperature ⟨121, "1d", []⟩ 0 p hpF
    obtain ⟨-, hg2, -, -⟩ := (h p hmem).2 _ hc
    have hCR : genRange ForecastVariable.temperature * 0.15 *
        (1 - (((⟨121, "1d", []⟩ : ForecastParams).trainingDays : ℕ) : ℚ) / 120) < 0 := by
      norm_num [genRange, genLo, genHi, ARGO_RANGES]
    have hmax := le_max_right (genLo ForecastVariable.temperature)
      (p.value - genRange ForecastVariable.temperature * 0.15 *
        (1 - (((⟨121, "1d", []⟩ : ForecastParams).trainingDays : ℕ) : ℚ) / 120))
    linarith

/-- C2 (amended): when the horizon string resolves to a nonnegative integer
day count `n`, the data sequence has exactly `trainingDays + n` points (when
the resolution is `NaN` or negative, the forecast loop body never runs and
the length is `trainingDays`; see the counterexample). -/
theorem c2_length (msin : ℚ → ℚ) (v : ForecastVariable) (params : ForecastParams)
    (seed : ℕ) (n : ℤ) (h : getHorizonInDays params.horizon = some n) (hn : 0 ≤ n) :
    ((generateSingleForecast msin v params seed).data.length : ℤ)
      = (params.trainingDays : ℤ) + n := by
  rw [gen_data_length, h]
  push_cast [loopCount]
  rw [Int.toNat_of_nonneg hn]

/-- Witness for `c2_length`: horizon `"7d"` with `trainingDays = 2` yields
9 data points. -/
theorem c2_length_witness :
    getHorizonInDays ("7d") = some 7 ∧ (0 : ℤ) ≤ 7 ∧
    ((generateSingleForecast (fun _ => 0) ForecastVariable.temperature
        ⟨2, "7d", []⟩ 0).data.length : ℤ) = (2 : ℤ) + 7 :=
  ⟨by decide, by decide,
    c2_length (fun _ => 0) ForecastVariable.temperature ⟨2, "7d", []⟩ 0 7
      (by decide) (by decide)⟩

/-- C2 counterexample: horizon `"-5d"` resolves to `-5` under the Step-1
rule, but the generator produces `trainingDays` points, not
`trainingDays + (-5)`. -/
theorem c2_length_cex :
    getHorizonInDays ("-5d") = some (-5) ∧
    (generateSingleForecast (fun _ => 0) ForecastVariable.temperature
        ⟨1, "-5d", []⟩ 0).data.length = 1 ∧
    ((generateSingleForecast (fun _ => 0) ForecastVariable.temperature
        ⟨1, "-5d", []⟩ 0).data.length : ℤ) ≠ (1 : ℤ) + (-5) := by
  have hl := gen_data_length (fun _ => 0) ForecastVariable.temperature ⟨1, "-5d", []⟩ 0
  refine ⟨by decide, ?_, ?_⟩
  · rw [hl]; decide
  · rw [hl]; decide

/-- C3 (amended): the confidence band of every forecast point is built with
half-width `range * 0.15 * (1 - trainingDays/120)` around the value of the point,
each side clamped individually to `[min, max]` (the claimed factor `0.075`
is half the one in the code; see the counterexample). -/
theorem c3_band (msin : ℚ → ℚ) (v : ForecastVariable) (params : ForecastParams)
    (seed : ℕ) :
    ∀ p ∈ (generateSingleForecast msin v params seed).data, p.type = .forecast →
      p.confidence = some
        (max (genLo v) (p.value - genRange v * 0.15 * (1 - (params.trainingDays : ℚ) / 120)),
         min (genHi v) (p.value + genRange v * 0.15 * (1 - (params.trainingDays : ℚ) / 120))) := by
  intro p hp hf
  rw [gen_data] at hp
  rcases List.mem_append.mp hp with hp | hp
  · obtain ⟨ht, -, -, -⟩ :=
      historicalData_mem_spec msin seed params.trainingDays _ _ (genLo_le_genHi v) p hp
    rw [ht] at hf
    cases hf
  · exact (genFore_mem_spec msin v params seed p hp).2.2.2

/-- Witness for `c3_band` at `(msin = 0, temperature, trainingDays = 1,
horizon = "1d", seed = 0)` on the forecast point at index 1. -/
theorem c3_band_witness :
    ∃ p ∈ (generateSingleForecast (fun _ => 0) ForecastVariable.temperature
        ⟨1, "1d", []⟩ 0).data, p.type = DataPointType.forecast ∧
      p.confidence = some
        (max (genLo ForecastVariable.temperature)
          (p.value - genRange ForecastVariable.temperature * 0.15 * (1 - ((1 : ℕ) : ℚ) / 120)),
         min (genHi ForecastVariable.temperature)
          (p.value + genRange ForecastVariable.temperature * 0.15 * (1 - ((1 : ℕ) : ℚ) / 120))) := by
  have hjl : (0 : ℕ) < (genFore (fun _ => 0) ForecastVariable.temperature
      ⟨1, "1d", []⟩ 0).length := by
    rw [genFore_length]; decide
  have hpF := getD_mem (genFore (fun _ => 0) ForecastVariable.temperature
    ⟨1, "1d", []⟩ 0) 0 dfltPoint hjl
  have hmem : (genFore (fun _ => 0) ForecastVariable.temperature ⟨1, "1d", []⟩ 0).getD 0
      dfltPoint ∈ (generateSingleForecast (fun _ => 0) ForecastVariable.temperature
      ⟨1, "1d", []⟩ 0).data := by
    rw [gen_data]; exact List.mem_append_right _ hpF
  have ht := (genFore_mem_spec (fun _ => 0) ForecastVariable.temperature
    ⟨1, "1d", []⟩ 0 _ hpF).1
  exact ⟨_, hmem, ht,
    c3_band (fun _ => 0) ForecastVariable.temperature ⟨1, "1d", []⟩ 0 _ hmem ht⟩

/-- C3 counterexample: with `trainingDays = 0`, horizon `"1d"`, seed 0 and
`msin = 0`, the band of the forecast point does not have half-width
`range * 0.075 * (1 - trainingDays/120)` as claimed (the code uses `0.15`). -/
theorem c3_band_cex :
    ¬ (∀ p ∈ (generateSingleForecast (fun _ => 0) ForecastVariable.temperature
          ⟨0, "1d", []⟩ 0).data, p.type = DataPointType.forecast →
        p.confidence = some
          (max (genLo ForecastVariable.temperature)
            (p.value - genRange ForecastVariable.temperature * 0.075 * (1 - (0 : ℚ) / 120)),
           min (genHi ForecastVariable.temperature)
            (p.value + genRange ForecastVariable.temperature * 0.075 * (1 - (0 : ℚ) / 120)))) := by
  intro h
  have hjl : (0 : ℕ) < (genFore (fun _ => 0) ForecastVariable.temperature
      ⟨0, "1d", []⟩ 0).length := by
    rw [genFore_length]; decide
  have hpF := getD_mem (genFore (fun _ => 0) ForecastVariable.temperature
    ⟨0, "1d", []⟩ 0) 0 dfltPoint hjl
  have hmem : (genFore (fun _ => 0) ForecastVariable.temperature ⟨0, "1d", []⟩ 0).getD 0
      dfltPoint ∈ (generateSingleForecast (fun _ => 0) ForecastVariable.temperature
      ⟨0, "1d", []⟩ 0).data := by
    rw [gen_data]; exact List.mem_append_right _ hpF
  obtain ⟨ht, hlo, hhi, hc⟩ := genFore_mem_spec (fun _ => 0) ForecastVariable.temperature
    ⟨0, "1d", []⟩ 0 _ hpF
  have hclaim := h _ hmem ht
  rw [hc] at hclaim
  injection hclaim with hpair
  obtain ⟨e1, e2⟩ := Prod.ext_iff.mp hpair
  -- names used below: v the value of the point, A the actual half-width, B the claimed one
  have hAB : genRange ForecastVariable.temperature * 0.075 * (1 - (0 : ℚ) / 120)
      < genRange ForecastVariable.temperature * 0.15
        * (1 - (((⟨0, "1d", []⟩ : ForecastParams).trainingDays : ℕ) : ℚ) / 120) := by
    norm_num [genRange, genLo, genHi, ARGO_RANGES]
  have h2B : 2 * (genRange ForecastVariable.temperature * 0.075 * (1 - (0 : ℚ) / 120))
      < genHi ForecastVariable.temperature - genLo ForecastVariable.temperature := by
    norm_num [genRange, genLo, genHi, ARGO_RANGES]
  -- from the first components: value - B ≤ lo
  have hle : ((genFore (fun _ => 0) ForecastVariable.temperature ⟨0, "1d", []⟩ 0).getD 0
        dfltPoint).value
      - genRange ForecastVariable.temperature * 0.075 * (1 - (0 : ℚ) / 120)
      ≤ genLo ForecastVariable.temperature := by
    rcases max_choice (genLo ForecastVariable.temperature)
      (((genFore (fun _ => 0) ForecastVariable.temperature ⟨0, "1d", []⟩ 0).getD 0
          dfltPoint).value
        - genRange ForecastVariable.temperature * 0.075 * (1 - (0 : ℚ) / 120)) with h1 | h1
    · have := le_max_right (genLo ForecastVariable.temperature)
        (((genFore (fun _ => 0) ForecastVariable.temperature ⟨0, "1d", []⟩ 0).getD 0
            dfltPoint).value
          - genRange ForecastVariable.temperature * 0.075 * (1 - (0 : ℚ) / 120))
      rw [h1] at this
      exact this
    · rw [h1] at e1
      rcases max_choice (genLo ForecastVariable.temperature)
        (((genFore (fun _ => 0) ForecastVariable.temperature ⟨0, "1d", []⟩ 0).getD 0
            dfltPoint).value
          - genRange ForecastVariable.temperature * 0.15
            * (1 - (((⟨0, "1d", []⟩ : ForecastParams).trainingDays : ℕ) : ℚ) / 120)) with h2 | h2
      · rw [h2] at e1
        linarith
      · rw [h2] at e1
        linarith
  -- from the second components: value + B ≥ hi
  have hge : genHi ForecastVariable.temperature
      ≤ ((genFore (fun _ => 0) ForecastVariable.temperature ⟨0, "1d", []⟩ 0).getD 0
          dfltPoint).value
        + genRange ForecastVariable.temperature * 0.075 * (1 - (0 : ℚ) / 120) := by
    rcases min_choice (genHi ForecastVariable.temperature)
      (((genFore (fun _ => 0) ForecastVariable.temperature ⟨0, "1d", []⟩ 0).getD 0
          dfltPoint).value
        + genRange ForecastVariable.temperature * 0.075 * (1 - (0 : ℚ) / 120)) with h1 | h1
    · have := min_le_right (genHi ForecastVariable.temperature)
        (((genFore (fun _ => 0) ForecastVariable.temperature ⟨0, "1d", []⟩ 0).getD 0
            dfltPoint).value
          + genRange ForecastVariable.temperature * 0.075 * (1 - (0 : ℚ) / 120))
      rw [h1] at this
      exact this
    · rw [h1] at e2
      rcases min_choice (genHi ForecastVariable.temperature)
        (((genFore (fun _ => 0) ForecastVariable.temperature ⟨0, "1d", []⟩ 0).getD 0
            dfltPoint).value
          + genRange ForecastVariable.temperature * 0.15
            * (1 - (((⟨0, "1d", []⟩ : ForecastParams).trainingDays : ℕ) : ℚ) / 120)) with h2 | h2
      · rw [h2] at e2
        linarith
      · rw [h2] at e2
        linarith
  linarith

/-- C4 (confirmed): the single-variable generator is a pure function of
`(msin, variable, params, seed)`: two invocations on equal inputs return
equal outputs — every numeric field, every label and every narrative string
(there is no other input, so no hidden entropy source in the model). -/
theorem c4_determinism (msin1 msin2 : ℚ → ℚ) (v1 v2 : ForecastVariable)
    (p1 p2 : ForecastParams) (s1 s2 : ℕ)
    (hm : msin1 = msin2) (hv : v1 = v2) (hp : p1 = p2) (hs : s1 = s2) :
    generateSingleForecast msin1 v1 p1 s1 = generateSingleForecast msin2 v2 p2 s2 := by
  subst hm hv hp hs
  rfl

/-- Witness for `c4_determinism` at a concrete input. -/
theorem c4_determinism_witness :
    generateSingleForecast (fun _ => 0) ForecastVariable.temperature ⟨1, "1d", []⟩ 0
      = generateSingleForecast (fun _ => 0) ForecastVariable.temperature ⟨1, "1d", []⟩ 0 :=
  c4_determinism (fun _ => 0) (fun _ => 0) ForecastVariable.temperature
    ForecastVariable.temperature ⟨1, "1d", []⟩ ⟨1, "1d", []⟩ 0 0 rfl rfl rfl rfl

/-- C5 counterexample: `"xd"` ends in `'d'` but its leading part is not a
parseable integer, so `getHorizonInDays` returns `NaN` (modelled `none`) —
not a day count, contradicting the always-a-day-count claim. -/
theorem c5_horizon_cex :
    getHorizonInDays ("xd") = none ∧ ¬ ∃ n : ℤ, getHorizonInDays ("xd") = some n := by
  have h : getHorizonInDays ("xd") = none := by decide
  exact ⟨h, fun hex => by obtain ⟨n, hn⟩ := hex; rw [h] at hn; cases hn⟩

/-- C5 (amended): horizon resolution never raises an error; it returns a day
count for every input string except a `'d'`-suffixed string whose leading
part does not parse as an integer, where it returns `NaN` (still no error):
a `'d'`-suffixed string yields `parseInt` of its leading part, any other
string (also `"garbage"`) yields 30, `"14d" → 14`, `"2 months" → 30`. -/
theorem c5_horizon :
    (∀ s : String, (∃ n : ℤ, getHorizonInDays s = some n) ∨
      (s.toList.getLast? = some 'd' ∧ jsParseInt (String.mk s.toList.dropLast) = none ∧
        getHorizonInDays s = none)) ∧
    (∀ s : String, s.toList.getLast? = some 'd' →
      getHorizonInDays s = jsParseInt (String.mk s.toList.dropLast)) ∧
    (∀ s : String, s.toList.getLast? ≠ some 'd' → getHorizonInDays s = some 30) ∧
    getHorizonInDays ("14d") = some 14 ∧
    getHorizonInDays ("2 months") = some 30 ∧
    getHorizonInDays ("garbage") = some 30 := by
  have hpos : ∀ s : String, s.toList.getLast? = some 'd' →
      getHorizonInDays s = jsParseInt (String.mk s.toList.dropLast) := by
    intro s hd
    unfold getHorizonInDays
    rw [if_pos hd]
  have hneg : ∀ s : String, s.toList.getLast? ≠ some 'd' →
      getHorizonInDays s = some 30 := by
    intro s hd
    unfold getHorizonInDays
    rw [if_neg hd]
    split <;> rfl
  refine ⟨?_, hpos, hneg, by decide, by decide, by decide⟩
  intro s
  by_cases hd : s.toList.getLast? = some 'd'
  · have hh : getHorizonInDays s = jsParseInt (String.mk s.toList.dropLast) := hpos s hd
    rcases hp : jsParseInt (String.mk s.toList.dropLast) with _ | n
    · exact Or.inr ⟨hd, rfl, by rw [hh]; exact hp⟩
    · exact Or.inl ⟨n, by rw [hh]; exact hp⟩
  · exact Or.inl ⟨30, hneg s hd⟩

/-- Witness for `c5_horizon` on `"2 months"` (non-`'d'` branch) and `"14d"`
(`'d'` branch). -/
theorem c5_horizon_witness :
    (("2 months" : String).toList.getLast? ≠ some 'd' ∧
      getHorizonInDays ("2 months") = some 30) ∧
    (("14d" : String).toList.getLast? = some 'd' ∧
      getHorizonInDays ("14d") = jsParseInt (String.mk ("14d" : String).toList.dropLast)) :=
  ⟨⟨by decide, c5_horizon.2.2.1 ("2 months") (by decide)⟩,
   ⟨by decide, c5_horizon.2.1 ("14d") (by decide)⟩⟩

/-- C6 (confirmed): the orchestrator returns one result per requested
variable, in input order, and the `k`-th result equals the single-variable
generator applied directly to `(variables[k], params, trainingDays + k)`. -/
theorem c6_orchestrator (msin : ℚ → ℚ) (params : ForecastParams) :
    (generateAllForecasts msin params).results.length = params.variables_.length ∧
    ∀ k, k < params.variables_.length →
      (generateAllForecasts msin params).results.getD k dfltResult
        = generateSingleForecast msin
            (params.variables_.getD k ForecastVariable.temperature)
            params (params.trainingDays + k) := by
  constructor
  · rw [genAll_results, mapWithIndex_length]
  · intro k hk
    rw [genAll_results,
      mapWithIndex_getD _ dfltResult ForecastVariable.temperature _ 0 k hk]
    have h0 : 0 + k = k := by omega
    rw [h0]

/-- Witness for `c6_orchestrator`: `variables = [temperature, salinity]`,
`trainingDays = 40` — the second result uses seed 41 and equals the direct
call. -/
theorem c6_orchestrator_witness :
    (1 : ℕ) < 2 ∧
    (generateAllForecasts (fun _ => 0)
        ⟨40, "1d", [ForecastVariable.temperature, ForecastVariable.salinity]⟩).results.getD
        1 dfltResult
      = generateSingleForecast (fun _ => 0) ForecastVariable.salinity
          ⟨40, "1d", [ForecastVariable.temperature, ForecastVariable.salinity]⟩ 41 :=
  ⟨by decide,
    (c6_orchestrator (fun _ => 0)
      ⟨40, "1d", [ForecastVariable.temperature, ForecastVariable.salinity]⟩).2 1 (by decide)⟩

/-- C7 (confirmed): per-variable `stats.confidence` equals
`round(trainingDays/100*80 + 20)` (an integer percent, not capped at 100),
it is monotone non-decreasing in `trainingDays`, and
`trainingDays = 10, 60, 100` give `28, 68, 100`. -/
theorem c7_confidence :
    (∀ (msin : ℚ → ℚ) v params seed,
      (generateSingleForecast msin v params seed).stats.confidence
        = jsRound ((params.trainingDays : ℚ) / 100 * 80 + 20)) ∧
    (∀ (msin1 msin2 : ℚ → ℚ) v1 v2 p1 p2 s1 s2, p1.trainingDays ≤ p2.trainingDays →
      (generateSingleForecast msin1 v1 p1 s1).stats.confidence
        ≤ (generateSingleForecast msin2 v2 p2 s2).stats.confidence) ∧
    (∀ (msin : ℚ → ℚ) v params seed, params.trainingDays = 10 →
      (generateSingleForecast msin v params seed).stats.confidence = 28) ∧
    (∀ (msin : ℚ → ℚ) v params seed, params.trainingDays = 60 →
      (generateSingleForecast msin v params seed).stats.confidence = 68) ∧
    (∀ (msin : ℚ → ℚ) v params seed, params.trainingDays = 100 →
      (generateSingleForecast msin v params seed).stats.confidence = 100) := by
  refine ⟨fun msin v params seed => gen_stats_confidence msin v params seed, ?_, ?_, ?_, ?_⟩
  · intro msin1 msin2 v1 v2 p1 p2 s1 s2 h
    rw [gen_stats_confidence, gen_stats_confidence]
    apply jsRound_mono
    have hc : (p1.trainingDays : ℚ) ≤ p2.trainingDays := by exact_mod_cast h
    linarith
  all_goals
    intro msin v params seed h
    rw [gen_stats_confidence, h]
    norm_num [jsRound]

/-- Witness for `c7_confidence`: monotonicity at `10 ≤ 60` and the three
claimed instances. -/
theorem c7_confidence_witness :
    ((10 : ℕ) ≤ 60 ∧
      (generateSingleForecast (fun _ => 0) ForecastVariable.temperature
          ⟨10, "1d", []⟩ 0).stats.confidence
        ≤ (generateSingleForecast (fun _ => 0) ForecastVariable.temperature
            ⟨60, "1d", []⟩ 0).stats.confidence) ∧
    (generateSingleForecast (fun _ => 0) ForecastVariable.temperature
        ⟨10, "1d", []⟩ 0).stats.confidence = 28 ∧
    (generateSingleForecast (fun _ => 0) ForecastVariable.temperature
        ⟨60, "1d", []⟩ 0).stats.confidence = 68 ∧
    (generateSingleForecast (fun _ => 0) ForecastVariable.temperature
        ⟨100, "1d", []⟩ 0).stats.confidence = 100 :=
  ⟨⟨by decide,
    c7_confidence.2.1 (fun _ => 0) (fun _ => 0) ForecastVariable.temperature
      ForecastVariable.temperature ⟨10, "1d", []⟩ ⟨60, "1d", []⟩ 0 0 (by decide)⟩,
   c7_confidence.2.2.1 (fun _ => 0) ForecastVariable.temperature ⟨10, "1d", []⟩ 0 rfl,
   c7_confidence.2.2.2.1 (fun _ => 0) ForecastVariable.temperature ⟨60, "1d", []⟩ 0 rfl,
   c7_confidence.2.2.2.2 (fun _ => 0) ForecastVariable.temperature ⟨100, "1d", []⟩ 0 rfl⟩

/-- C8 (confirmed): the first `trainingDays` data points are labeled exactly
`"D-<trainingDays>"` down to `"D-1"` in order, followed by the forecast
points labeled exactly `"D+1"` up to `"D+<horizonDays>"` in order. -/
theorem c8_labels (msin : ℚ → ℚ) (v : ForecastVariable) (params : ForecastParams)
    (seed : ℕ) :
    (∀ k, k < params.trainingDays →
      ((generateSingleForecast msin v params seed).data.getD k dfltPoint).day
        = "D-" ++ toString (params.trainingDays - k)) ∧
    (∀ j, j < loopCount (getHorizonInDays params.horizon) →
      ((generateSingleForecast msin v params seed).data.getD (params.trainingDays + j)
          dfltPoint).day = "D+" ++ toString (j + 1)) := by
  constructor
  · intro k hk
    rw [gen_data_getD_hist msin v params seed k hk, genHist_eq,
      historicalData_getD msin seed params.trainingDays _ _ k hk]
    rfl
  · intro j hj
    rw [gen_data_getD_fore msin v params seed j hj, genFore_eq,
      forecastLoop_getD_day msin (genHist msin v params seed) (genLo v) (genHi v) seed
        params.trainingDays (genTrendC seed params.trainingDays (genRange v))
        (genSAmp params.trainingDays) (loopCount (getHorizonInDays params.horizon)) 0
        (genLastVal0 (genHist msin v params seed) (genLo v) (genRange v)) j hj]
    have h0 : 0 + j + 1 = j + 1 := by omega
    rw [h0]

/-- Witness for `c8_labels` at `trainingDays = 2`, horizon `"1d"`: the first
point is `"D-2"` and the point after the historical block is `"D+1"`. -/
theorem c8_labels_witness :
    (0 : ℕ) < 2 ∧ (0 : ℕ) < loopCount (getHorizonInDays ("1d")) ∧
    ((generateSingleForecast (fun _ => 0) ForecastVariable.temperature
        ⟨2, "1d", []⟩ 0).data.getD 0 dfltPoint).day = "D-2" ∧
    ((generateSingleForecast (fun _ => 0) ForecastVariable.temperature
        ⟨2, "1d", []⟩ 0).data.getD 2 dfltPoint).day = "D+1" := by
  refine ⟨by decide, by decide, ?_, ?_⟩
  · exact ((c8_labels (fun _ => 0) ForecastVariable.temperature ⟨2, "1d", []⟩ 0).1 0
      (by decide)).trans (by decide)
  · exact ((c8_labels (fun _ => 0) ForecastVariable.temperature ⟨2, "1d", []⟩ 0).2 0
      (by decide)).trans (by decide)

/-- C9 (confirmed): a `'d'`-suffixed horizon whose leading part does not
parse makes `getHorizonInDays` return `NaN` (`none`); the generator then
runs the forecast loop zero times, so `data` holds exactly the
`trainingDays` historical points, `stats.min = Infinity`,
`stats.max = -Infinity` and `stats.trend = NaN`; no exception is raised
(the generator is a total function). -/
theorem c9_nan_horizon :
    (∀ s : String, s.toList.getLast? = some 'd' →
      jsParseInt (String.mk s.toList.dropLast) = none → getHorizonInDays s = none) ∧
    (∀ (msin : ℚ → ℚ) v params seed, getHorizonInDays params.horizon = none →
      (generateSingleForecast msin v params seed).data.length = params.trainingDays ∧
      (∀ p ∈ (generateSingleForecast msin v params seed).data,
        p.type = DataPointType.historical) ∧
      (generateSingleForecast msin v params seed).stats.min = JSNum.inf ∧
      (generateSingleForecast msin v params seed).stats.max = JSNum.negInf ∧
      (generateSingleForecast msin v params seed).stats.trend = JSNum.nan) := by
  constructor
  · intro s hd hp
    unfold getHorizonInDays
    rw [if_pos hd]
    exact hp
  · intro msin v params seed h
    have hF : genFore msin v params seed = [] := by
      have hl := genFore_length msin v params seed
      rw [h] at hl
      exact List.eq_nil_of_length_eq_zero hl
    have hslice : genSlice msin v params seed = [] := by
      unfold genSlice
      rw [hF]
      rfl
    refine ⟨?_, ?_, ?_, ?_, ?_⟩
    · rw [gen_data_length, h]
      rfl
    · intro p hp
      rw [gen_data, hF, List.append_nil] at hp
      exact (historicalData_mem_spec msin seed params.trainingDays _ _
        (genLo_le_genHi v) p hp).1
    · rw [gen_stats_min, hslice]
      rfl
    · rw [gen_stats_max, hslice]
      rfl
    · rw [gen_stats_trend, hslice]
      rfl

/-- Witness for `c9_nan_horizon` at horizon `"xd"`, `trainingDays = 1`. -/
theorem c9_nan_horizon_witness :
    (("xd" : String).toList.getLast? = some 'd' ∧
      jsParseInt (String.mk ("xd" : String).toList.dropLast) = none ∧
      getHorizonInDays ("xd") = none) ∧
    (generateSingleForecast (fun _ => 0) ForecastVariable.temperature
        ⟨1, "xd", []⟩ 0).data.length = 1 ∧
    (generateSingleForecast (fun _ => 0) ForecastVariable.temperature
        ⟨1, "xd", []⟩ 0).stats.min = JSNum.inf ∧
    (generateSingleForecast (fun _ => 0) ForecastVariable.temperature
        ⟨1, "xd", []⟩ 0).stats.max = JSNum.negInf ∧
    (generateSingleForecast (fun _ => 0) ForecastVariable.temperature
        ⟨1, "xd", []⟩ 0).stats.trend = JSNum.nan := by
  have h1 := c9_nan_horizon.1 ("xd") (by decide) (by decide)
  have h2 := c9_nan_horizon.2 (fun _ => 0) ForecastVariable.temperature ⟨1, "xd", []⟩ 0
    (by decide)
  exact ⟨⟨by decide, by decide, h1⟩, h2.1, h2.2.2.1, h2.2.2.2.1, h2.2.2.2.2⟩

/-- C10 (confirmed): for an empty variables list `generateAllForecasts`
returns normally, with an empty results sequence and the fixed overall
narrative template whose overall-confidence figure is `NaN` (in JS the sum
over zero results divided by the zero length is `0/0 = NaN`, and
`Math.round(NaN)` prints as `"NaN"`). -/
theorem c10_empty_variables (msin : ℚ → ℚ) (td : ℕ) (horizon : String) :
    generateAllForecasts msin ⟨td, horizon, []⟩ =
      { params := ⟨td, horizon, []⟩
        results := []
        narrative := "This forecast for the next **" ++ horizon ++ "**, based on **"
          ++ toString td
          ++ " days** of historical data, suggests the following key trends:\n\n"
          ++ "\n**Confidence:** The overall confidence in this forecast is **NaN%**. Longer training periods generally yield higher confidence." } := by
  have h : generateAllForecasts msin ⟨td, horizon, []⟩ =
      { params := ⟨td, horizon, []⟩
        results := []
        narrative := (("This forecast for the next **" ++ horizon ++ "**, based on **"
            ++ toString td
            ++ " days** of historical data, suggests the following key trends:\n\n"
          ++ "\n**Confidence:** The overall confidence in this forecast is **")
          ++ "NaN")
          ++ "%**. Longer training periods generally yield higher confidence." } := rfl
  rw [h]
  congr 1
  rw [String.append_assoc ("This forecast for the next **" ++ horizon ++ "**, based on **"
      ++ toString td
      ++ " days** of historical data, suggests the following key trends:\n\n"
      ++ "\n**Confidence:** The overall confidence in this forecast is **") "NaN"
      "%**. Longer training periods generally yield higher confidence.",
    String.append_assoc ("This forecast for the next **" ++ horizon ++ "**, based on **"
      ++ toString td
      ++ " days** of historical data, suggests the following key trends:\n\n")
      "\n**Confidence:** The overall confidence in this forecast is **"
      ("NaN" ++ "%**. Longer training periods generally yield higher confidence.")]
  congr 1

end FDA
